/-
Verification of the signal-generation + risk-gating core of the
Test_Web_MetaTrader5 repository, as a shallow embedding in Lean 4.

Modelling conventions:
* Python floats are modelled as exact rationals (ℚ).  All the properties
  verified here are control-flow / exact-constant properties, where the
  rational semantics coincides with the float semantics on the inputs used.
* Python dicts keyed by strings are modelled as functions `String → Option _`
  (for the daily/weekly stats tables) or total functions with the dict's
  `.get(key, default)` semantics (for position counts and symbol counters).
* `datetime.now()` is modelled by an explicit `Clock` argument carrying the
  formatted day key, week key and current hour, passed to the methods that
  read the wall clock.
* Formatted reason strings are modelled by structured inductive values that
  carry exactly the data interpolated into the corresponding f-string; two
  reasons are equal iff the source produces the same string (the formats of
  the distinct return sites are pairwise distinct).
* Python `round` (banker's rounding) is modelled exactly on ℚ.
-/
import Mathlib

namespace MT5

/-! ## config.py — TradingConfig constants (src/config.py lines 28-57) -/

namespace TradingConfig

def RISK_PER_TRADE_PERCENT : ℚ := 1
def MAX_POSITIONS_PER_SYMBOL : ℕ := 1
def MAX_TRADES_PER_DAY : ℕ := 3
def MAX_TRADES_PER_SYMBOL_PER_DAY : ℕ := 1
def MAX_SLIPPAGE_POINTS : ℚ := 5
def MAX_SPREAD_POINTS : ℚ := 10
def DAILY_LOSS_LIMIT_PERCENT : ℚ := 3
def WEEKLY_LOSS_LIMIT_PERCENT : ℚ := 5
def TRADING_START_HOUR : ℕ := 0
def TRADING_END_HOUR : ℕ := 23

end TradingConfig

/-! ## strategies.py — SignalType (src/strategies.py lines 12-16) -/

inductive SignalType where
  | BUY
  | SELL
  | NO_TRADE
deriving DecidableEq, Repr

/-! ## risk_manager.py — data model (src/risk_manager.py lines 13-51)

`TradeStats` drops the `date` field of the source dataclass (it is written at
construction and never read by any method verified here).  `symbols_traded`
is the dict `{symbol: count}` with `.get(sym, 0)` semantics. -/

structure TradeStats where
  total_trades : ℕ
  winning_trades : ℕ
  losing_trades : ℕ
  total_profit : ℚ
  total_loss : ℚ
  symbols_traded : String → ℕ

/-- Plain `TradeStats(datetime.now())`: every counter at its dataclass
default (0 / 0.0 / empty dict). -/
def TradeStats.init : TradeStats :=
  ⟨0, 0, 0, 0, 0, fun _ => 0⟩

/-- Structured stand-in for the `kill_switch_reason` string: `empty` is the
initial `""`, the other two constructors carry the two numbers interpolated
into the f-strings of check 7 / check 8 of `check_signal`. -/
inductive KillReason where
  | empty
  | dailyLimit (loss limit : ℚ)
  | weeklyLimit (loss limit : ℚ)
deriving DecidableEq, Repr

/-- Mutable state of a `RiskManager` instance (src/risk_manager.py lines
46-51). -/
structure RMState where
  daily_stats : String → Option TradeStats
  weekly_stats : String → Option TradeStats
  kill_switch_active : Bool
  kill_switch_reason : KillReason

/-- `RiskManager.__init__`: empty stats tables, kill switch off. -/
def RMState.init : RMState :=
  ⟨fun _ => none, fun _ => none, false, .empty⟩

/-- The fields of a `TradingSignal` that `RiskManager.check_signal` reads
(`signal.signal`, `signal.symbol`, `signal.risk_points`); the remaining
fields of the source class never flow into the risk checks. -/
structure TradingSignal where
  symbol : String
  signal : SignalType
  risk_points : ℚ

/-- The `market_info` dict: every key is optional and read through
`.get(key, default)` exactly as in the source. -/
structure MarketInfo where
  spread : Option ℚ
  point : Option ℚ
  tick_value : Option ℚ
  volume_min : Option ℚ
  volume_step : Option ℚ

/-- Wall-clock values read via `datetime.now()`: the `"%Y-%m-%d"` day key,
the `"%Y-W%W"` week key, and `.hour`. -/
structure Clock where
  today : String
  week : String
  hour : ℕ

/-- Structured stand-in for the reason strings returned by `check_signal`;
one constructor per textually distinct return site, carrying the interpolated
data.  `killSwitchOn r` is the check-1 string (it wraps the stored reason in
a prefixing format), `storedKill r` is the raw stored reason returned by
checks 7/8. -/
inductive Reason where
  | killSwitchOn (r : KillReason)
  | noTradeSignal
  | maxPositions (symbol : String) (count lim : ℕ)
  | maxTradesPerDay (count lim : ℕ)
  | maxTradesPerSymbolPerDay (symbol : String) (count lim : ℕ)
  | spreadTooHigh (spread lim : ℚ)
  | storedKill (r : KillReason)
  | outsideHours (startHour endHour : ℕ)
  | lotNotComputable
  | approved
deriving DecidableEq, Repr

/-- Return value of `check_signal` together with the post-call object state
(the Python method mutates `self` in checks 7/8). -/
structure CheckResult where
  state : RMState
  ok : Bool
  reason : Reason
  lot_size : ℚ

/-! ## risk_manager.py — position sizing (lines 129-168) -/

/-- Python `round` on a float: round half to even. -/
def pyRound (q : ℚ) : ℤ :=
  if q - ⌊q⌋ < 1/2 then ⌊q⌋
  else if q - ⌊q⌋ > 1/2 then ⌊q⌋ + 1
  else if ⌊q⌋ % 2 = 0 then ⌊q⌋ else ⌊q⌋ + 1

/-- Python `round(q, 2)`: round half to even at two decimals. -/
def pyRound2 (q : ℚ) : ℚ :=
  (pyRound (q * 100) : ℚ) / 100

/-- `RiskManager.calculate_position_size` (lines 146-168).  The `try/except`
catches the `ZeroDivisionError`s that float division raises when `point`,
`stop_distance_points * tick_value` or `volume_step` is zero, and returns
0.0; those guards are made explicit here.  On nonzero divisors the body is
exact rational arithmetic. -/
def calculate_position_size (equity stop_distance : ℚ) (mi : MarketInfo) : ℚ :=
  let risk_money := equity * (TradingConfig.RISK_PER_TRADE_PERCENT / 100)
  let point := mi.point.getD (1/100000)
  let tick_value := mi.tick_value.getD 1
  let volume_min := mi.volume_min.getD (1/100)
  let volume_step := mi.volume_step.getD (1/100)
  if point = 0 then 0
  else
    let stop_distance_points := stop_distance / point
    if stop_distance_points * tick_value = 0 then 0
    else
      let lot0 := risk_money / (stop_distance_points * tick_value)
      let lot1 := max volume_min lot0
      if volume_step = 0 then 0
      else (pyRound (lot1 / volume_step) : ℚ) * volume_step

/-! ## risk_manager.py — kill switch helpers (lines 214-224) -/

/-- `RiskManager._activate_kill_switch` (lines 214-218). -/
def activate_kill_switch (s : RMState) (reason : KillReason) : RMState :=
  { s with kill_switch_active := true, kill_switch_reason := reason }

/-- `RiskManager.deactivate_kill_switch` (lines 220-224). -/
def deactivate_kill_switch (s : RMState) : RMState :=
  { s with kill_switch_active := false, kill_switch_reason := .empty }

/-! ## risk_manager.py — check_signal (lines 53-127) -/

/-- `RiskManager.check_signal`, the ten ordered risk checks, translated
branch for branch from src/risk_manager.py lines 68-127. -/
def check_signal (s : RMState) (clk : Clock) (signal : TradingSignal)
    (account_equity : ℚ) (current_positions : String → ℕ)
    (market_info : MarketInfo) : CheckResult :=
  -- 1. kill switch
  if s.kill_switch_active then
    ⟨s, false, .killSwitchOn s.kill_switch_reason, 0⟩
  -- 2. signal type
  else if signal.signal = SignalType.NO_TRADE then
    ⟨s, false, .noTradeSignal, 0⟩
  else
    -- 3. positions per symbol
    let symbol_positions := current_positions signal.symbol
    if symbol_positions ≥ TradingConfig.MAX_POSITIONS_PER_SYMBOL then
      ⟨s, false, .maxPositions signal.symbol symbol_positions
          TradingConfig.MAX_POSITIONS_PER_SYMBOL, 0⟩
    else
      -- 4. trades per day
      let daily_stat := (s.daily_stats clk.today).getD TradeStats.init
      if daily_stat.total_trades ≥ TradingConfig.MAX_TRADES_PER_DAY then
        ⟨s, false, .maxTradesPerDay daily_stat.total_trades
            TradingConfig.MAX_TRADES_PER_DAY, 0⟩
      else
        -- 5. trades per symbol per day
        let symbol_trades_today := daily_stat.symbols_traded signal.symbol
        if symbol_trades_today ≥ TradingConfig.MAX_TRADES_PER_SYMBOL_PER_DAY then
          ⟨s, false, .maxTradesPerSymbolPerDay signal.symbol symbol_trades_today
              TradingConfig.MAX_TRADES_PER_SYMBOL_PER_DAY, 0⟩
        else
          -- 6. spread
          let spread := market_info.spread.getD 0
          if spread > TradingConfig.MAX_SPREAD_POINTS then
            ⟨s, false, .spreadTooHigh spread TradingConfig.MAX_SPREAD_POINTS, 0⟩
          else
            -- 7. daily loss limit
            let daily_loss_limit :=
              account_equity * (TradingConfig.DAILY_LOSS_LIMIT_PERCENT / 100)
            if |daily_stat.total_loss| ≥ daily_loss_limit then
              let r := KillReason.dailyLimit |daily_stat.total_loss| daily_loss_limit
              ⟨activate_kill_switch s r, false, .storedKill r, 0⟩
            else
              -- 8. weekly loss limit
              let weekly_stat := (s.weekly_stats clk.week).getD TradeStats.init
              let weekly_loss_limit :=
                account_equity * (TradingConfig.WEEKLY_LOSS_LIMIT_PERCENT / 100)
              if |weekly_stat.total_loss| ≥ weekly_loss_limit then
                let r := KillReason.weeklyLimit |weekly_stat.total_loss| weekly_loss_limit
                ⟨activate_kill_switch s r, false, .storedKill r, 0⟩
              else
                -- 9. trading hours
                if ¬ (TradingConfig.TRADING_START_HOUR ≤ clk.hour ∧
                      clk.hour ≤ TradingConfig.TRADING_END_HOUR) then
                  ⟨s, false, .outsideHours TradingConfig.TRADING_START_HOUR
                      TradingConfig.TRADING_END_HOUR, 0⟩
                else
                  -- 10. lot size
                  let lot_size :=
                    calculate_position_size account_equity signal.risk_points market_info
                  if lot_size ≤ 0 then
                    ⟨s, false, .lotNotComputable, 0⟩
                  else
                    ⟨s, true, .approved, lot_size⟩

/-! ## risk_manager.py — record_trade (lines 170-212) -/

/-- The per-stats update that `record_trade` performs identically on the
daily and on the weekly `TradeStats` (lines 186-196 resp. 203-212). -/
def updateStats (st : TradeStats) (symbol : String) (profit_loss : ℚ) : TradeStats :=
  let st := { st with total_trades := st.total_trades + 1 }
  let st :=
    if profit_loss > 0 then
      { st with winning_trades := st.winning_trades + 1,
                total_profit := st.total_profit + profit_loss }
    else
      { st with losing_trades := st.losing_trades + 1,
                total_loss := st.total_loss + profit_loss }
  { st with symbols_traded :=
      fun k => if k = symbol then st.symbols_traded k + 1 else st.symbols_traded k }

/-- `RiskManager.record_trade` (lines 170-212): insert-if-missing then mutate
the current day's and current week's stats. -/
def record_trade (s : RMState) (clk : Clock) (symbol : String)
    (profit_loss : ℚ) : RMState :=
  let daily := (s.daily_stats clk.today).getD TradeStats.init
  let weekly := (s.weekly_stats clk.week).getD TradeStats.init
  { s with
    daily_stats := fun k =>
      if k = clk.today then some (updateStats daily symbol profit_loss)
      else s.daily_stats k,
    weekly_stats := fun k =>
      if k = clk.week then some (updateStats weekly symbol profit_loss)
      else s.weekly_stats k }

/-! ## Specification-side view of the check order (spec §4.5)

`checkSignalSpec` restates `check_signal` the way the spec describes it: an
explicit ordered list of ten (condition, reason, state-effect) triples,
resolved by a generic first-failure combinator.  The refinement theorem for
C1 proves `check_signal` equal to this view on all inputs. -/

/-- First failing entry of an ordered check list: each entry is
(fails?, reason, state effect on failure). -/
def firstFail : List (Bool × Reason × (RMState → RMState)) →
    Option (Reason × (RMState → RMState))
  | [] => none
  | (b, r, e) :: rest => if b then some (r, e) else firstFail rest

/-- Ordered-first-failure reading of §4.5: the ten checks listed in the
spec's order, evaluated by `firstFail`; on no failure, approve with the
computed lot size. -/
def checkSignalSpec (s : RMState) (clk : Clock) (signal : TradingSignal)
    (account_equity : ℚ) (current_positions : String → ℕ)
    (market_info : MarketInfo) : CheckResult :=
  let symbol_positions := current_positions signal.symbol
  let daily_stat := (s.daily_stats clk.today).getD TradeStats.init
  let symbol_trades_today := daily_stat.symbols_traded signal.symbol
  let spread := market_info.spread.getD 0
  let daily_loss_limit :=
    account_equity * (TradingConfig.DAILY_LOSS_LIMIT_PERCENT / 100)
  let weekly_stat := (s.weekly_stats clk.week).getD TradeStats.init
  let weekly_loss_limit :=
    account_equity * (TradingConfig.WEEKLY_LOSS_LIMIT_PERCENT / 100)
  let rDaily := KillReason.dailyLimit |daily_stat.total_loss| daily_loss_limit
  let rWeekly := KillReason.weeklyLimit |weekly_stat.total_loss| weekly_loss_limit
  let lot_size := calculate_position_size account_equity signal.risk_points market_info
  let checks : List (Bool × Reason × (RMState → RMState)) :=
    [ (s.kill_switch_active, .killSwitchOn s.kill_switch_reason, id),
      (decide (signal.signal = SignalType.NO_TRADE), .noTradeSignal, id),
      (decide (symbol_positions ≥ TradingConfig.MAX_POSITIONS_PER_SYMBOL),
        .maxPositions signal.symbol symbol_positions
          TradingConfig.MAX_POSITIONS_PER_SYMBOL, id),
      (decide (daily_stat.total_trades ≥ TradingConfig.MAX_TRADES_PER_DAY),
        .maxTradesPerDay daily_stat.total_trades TradingConfig.MAX_TRADES_PER_DAY, id),
      (decide (symbol_trades_today ≥ TradingConfig.MAX_TRADES_PER_SYMBOL_PER_DAY),
        .maxTradesPerSymbolPerDay signal.symbol symbol_trades_today
          TradingConfig.MAX_TRADES_PER_SYMBOL_PER_DAY, id),
      (decide (spread > TradingConfig.MAX_SPREAD_POINTS),
        .spreadTooHigh spread TradingConfig.MAX_SPREAD_POINTS, id),
      (decide (|daily_stat.total_loss| ≥ daily_loss_limit),
        .storedKill rDaily, fun st => activate_kill_switch st rDaily),
      (decide (|weekly_stat.total_loss| ≥ weekly_loss_limit),
        .storedKill rWeekly, fun st => activate_kill_switch st rWeekly),
      (decide (¬ (TradingConfig.TRADING_START_HOUR ≤ clk.hour ∧
                  clk.hour ≤ TradingConfig.TRADING_END_HOUR)),
        .outsideHours TradingConfig.TRADING_START_HOUR TradingConfig.TRADING_END_HOUR, id),
      (decide (lot_size ≤ 0), .lotNotComputable, id) ]
  match firstFail checks with
  | some (r, e) => ⟨e s, false, r, 0⟩
  | none => ⟨s, true, .approved, lot_size⟩

/-! ## signal_engine.py — construction of `SignalEngine` (lines 80-91)

`SignalEngine.__init__` builds a dict literal whose keys are attribute
accesses on the `StrategyType` enum class of src/config.py.  Python resolves
each key expression left to right; an access to a name that is not an enum
member raises `AttributeError` and aborts construction.  The member list and
the accessed names are transcribed verbatim from the two files. -/

/-- Members of the `StrategyType` enum, src/config.py lines 17-25. -/
def strategyTypeMembers : List String :=
  ["MA_CROSSOVER", "DONCHIAN_BREAKOUT", "BOLLINGER_BANDS", "RSI_SWING",
   "MACD", "ATR_TRAILING", "SUPERTREND"]

/-- Attribute names accessed on `StrategyType`, in evaluation order, by the
`strategy_map` dict literal of `SignalEngine.__init__`
(src/signal_engine.py lines 81-91). -/
def signalEngineInitAttrRefs : List String :=
  ["MA_CROSSOVER", "DONCHIAN_BREAKOUT", "BOLLINGER_BANDS", "RSI_SWING",
   "MACD", "ATR_TRAILING", "SUPERTREND", "ULTIMATE_ACCURACY", "AI_MULTI_FACTOR"]

/-- Python attribute lookup on an enum class: returns the member, or raises
`AttributeError` (modelled as `Except.error` carrying the missing name). -/
def enumAttr (name : String) : Except String String :=
  if name ∈ strategyTypeMembers then .ok name else .error name

/-- Left-to-right evaluation of a sequence of attribute accesses; the first
raised `AttributeError` propagates. -/
def resolveAttrRefs : List String → Except String (List String)
  | [] => .ok []
  | n :: rest => do
      let v ← enumAttr n
      let vs ← resolveAttrRefs rest
      .ok (v :: vs)

/-- Outcome of executing `SignalEngine.__init__`: either the resolved key
list of `strategy_map`, or the `AttributeError` that aborts construction. -/
def signalEngineInit : Except String (List String) :=
  resolveAttrRefs signalEngineInitAttrRefs

/-! ## strategies.py — TechnicalIndicators.supertrend (lines 130-167)

The Python function works on numpy arrays of one common length; indices are
modelled as ℕ and the arrays as functions `ℕ → ℚ` (entries beyond the actual
length are never constrained or used by the theorems).  The in-place band
"ratchet" loop writes only index `i` at iteration `i` and reads index `i-1`
as settled in the previous iteration, so the final arrays satisfy exactly
the recurrences below. -/

namespace TechnicalIndicators

/-- `pd.Series(x).ewm(alpha, adjust=False).mean()`: the exponential
recurrence seeded with the first value. -/
def ewm_mean (x : ℕ → ℚ) (alpha : ℚ) : ℕ → ℚ
  | 0 => x 0
  | i + 1 => (1 - alpha) * ewm_mean x alpha i + alpha * x (i + 1)

/-- Per-bar true range (src/strategies.py lines 46-51): index 0 is
overwritten with `high-low`, later indices use the previous close. -/
def true_range (high low close : ℕ → ℚ) : ℕ → ℚ
  | 0 => high 0 - low 0
  | i + 1 =>
      max (high (i + 1) - low (i + 1))
        (max |high (i + 1) - close i| |low (i + 1) - close i|)

/-- `TechnicalIndicators.atr` (lines 40-55): Wilder smoothing of the true
range with `alpha = 1/period`. -/
def atr (high low close : ℕ → ℚ) (period : ℕ) : ℕ → ℚ :=
  ewm_mean (true_range high low close) (1 / (period : ℚ))

/-- Basic upper band `(high+low)/2 + multiplier*ATR` (line 144). -/
def st_basic_upper (high low close : ℕ → ℚ) (period : ℕ) (multiplier : ℚ)
    (i : ℕ) : ℚ :=
  (high i + low i) / 2 + multiplier * atr high low close period i

/-- Basic lower band `(high+low)/2 - multiplier*ATR` (line 145). -/
def st_basic_lower (high low close : ℕ → ℚ) (period : ℕ) (multiplier : ℚ)
    (i : ℕ) : ℚ :=
  (high i + low i) / 2 - multiplier * atr high low close period i

/-- The settled upper band after the in-place ratchet of lines 151-153. -/
def st_upper (high low close : ℕ → ℚ) (period : ℕ) (multiplier : ℚ) : ℕ → ℚ
  | 0 => st_basic_upper high low close period multiplier 0
  | i + 1 =>
      if close i > st_upper high low close period multiplier i then
        max (st_basic_upper high low close period multiplier (i + 1))
          (st_upper high low close period multiplier i)
      else st_basic_upper high low close period multiplier (i + 1)

/-- The settled lower band after the in-place ratchet of lines 155-157. -/
def st_lower (high low close : ℕ → ℚ) (period : ℕ) (multiplier : ℚ) : ℕ → ℚ
  | 0 => st_basic_lower high low close period multiplier 0
  | i + 1 =>
      if close i < st_lower high low close period multiplier i then
        min (st_basic_lower high low close period multiplier (i + 1))
          (st_lower high low close period multiplier i)
      else st_basic_lower high low close period multiplier (i + 1)

/-- First returned array of `supertrend` (lines 147, 159-165): index 0 keeps
the `np.zeros_like` initialisation; the loop fills indices 1... -/
def supertrend_line (high low close : ℕ → ℚ) (period : ℕ) (multiplier : ℚ) :
    ℕ → ℚ
  | 0 => 0
  | i + 1 =>
      if close (i + 1) ≤ st_upper high low close period multiplier (i + 1) then
        st_upper high low close period multiplier (i + 1)
      else st_lower high low close period multiplier (i + 1)

/-- Second returned array of `supertrend` (lines 148, 159-165): index 0
keeps the `np.ones_like` initialisation. -/
def supertrend_direction (high low close : ℕ → ℚ) (period : ℕ)
    (multiplier : ℚ) : ℕ → ℚ
  | 0 => 1
  | i + 1 =>
      if close (i + 1) ≤ st_upper high low close period multiplier (i + 1) then
        -1
      else 1

end TechnicalIndicators

/-! ## strategies.py — UltimateAccuracyScore.calculate_ultimate_score
(lines 944-1070)

The six sub-analyses feeding the composite (lines 962-1021) run through
pandas rolling statistics and float-transcendental code (the Hurst log-log
regression, `np.polyfit`); their scalar outcomes are abstracted as oracle
inputs, at exactly the granularity at which the source consumes them.  The
&lt;100-bar guard, the per-factor score tables and the weighting/capping/
bucketing logic are embedded branch for branch. -/

/-- Market regime labels produced by
`AIPatternRecognition.market_regime_detection`. -/
inductive Regime where
  | trending
  | volatile
  | ranging
  | crisis
deriving DecidableEq, Repr

/-- Oracle inputs of `calculate_ultimate_score`: the scalar results of the
sub-analyses of lines 962-1021 that the combination logic consumes. -/
structure UltimateOracles where
  short_prob_up : ℚ
  long_prob_up : ℚ
  pattern_confidence : ℚ
  regime : Regime
  near_fib : Bool
  hurst : ℚ
  ichimoku_skip : Bool
  above_cloud : Bool
  below_cloud : Bool

/-- Regime bonus of line 987. -/
def regimeScore (r : Regime) : ℚ :=
  if r = Regime.trending then 25 else if r = Regime.volatile then 10 else 0

/-- `ai_score` of line 989 (`(pattern_confidence + regime_score)/50*100`). -/
def aiScore (o : UltimateOracles) : ℚ :=
  (o.pattern_confidence + regimeScore o.regime) / 50 * 100

/-- `fib_score` of line 1004. -/
def fibScore (o : UltimateOracles) : ℚ :=
  if o.near_fib then 25 else 10

/-- `hurst_score` of line 1008. -/
def hurstScore (o : UltimateOracles) : ℚ :=
  if o.hurst > 1/2 then 20 else if o.hurst < 1/2 then 10 else 15

/-- `ichimoku_score` of lines 1011-1021. -/
def ichimokuScore (o : UltimateOracles) : ℚ :=
  if o.ichimoku_skip then 25/2
  else if o.above_cloud then 25
  else if o.below_cloud then 0
  else 25/2

/-- `composite_accuracy` of lines 1024-1031. -/
def ultimateComposite (o : UltimateOracles) : ℚ :=
  o.short_prob_up * (30/100) +
  o.long_prob_up * (30/100) +
  aiScore o * (20/100) +
  fibScore o * (10/100) +
  hurstScore o * (5/100) +
  ichimokuScore o * (5/100)

/-- Result dict of `calculate_ultimate_score`; `error` is `some n` for the
insufficient-data message interpolating the bar count `n` (the key is absent
otherwise), and `composite_accuracy` is absent in the &lt;100-bar branch. -/
structure UltimateResult where
  ultimate_accuracy : ℚ
  confidence_level : String
  direction : String
  recommendation : String
  error : Option ℕ
  composite_accuracy : Option ℚ

/-- `UltimateAccuracyScore.calculate_ultimate_score` (lines 944-1070),
parameterised by the bar count `nBars = len(close)` and the sub-analysis
oracles. -/
def calculate_ultimate_score (nBars : ℕ) (o : UltimateOracles) : UltimateResult :=
  if nBars < 100 then
    { ultimate_accuracy := 50
      confidence_level := "very_low"
      direction := "neutral"
      recommendation := "wait"
      error := some nBars
      composite_accuracy := none }
  else
    let composite_accuracy := ultimateComposite o
    let ultimate_accuracy := min composite_accuracy 100
    let confidence_level :=
      if ultimate_accuracy ≥ 90 then "very_high"
      else if ultimate_accuracy ≥ 75 then "high"
      else if ultimate_accuracy ≥ 60 then "medium"
      else if ultimate_accuracy ≥ 45 then "low"
      else "very_low"
    let dir_rec : String × String :=
      if ultimate_accuracy ≥ 70 ∧ composite_accuracy > 65 then
        if o.short_prob_up > 60 then ("strong_buy", "strong_buy")
        else ("strong_sell", "strong_sell")
      else if composite_accuracy > 50 then
        if o.short_prob_up > 50 then ("buy", "buy") else ("sell", "sell")
      else ("neutral", "wait")
    { ultimate_accuracy := pyRound2 ultimate_accuracy
      confidence_level := confidence_level
      direction := dir_rec.1
      recommendation := dir_rec.2
      error := none
      composite_accuracy := some (pyRound2 composite_accuracy) }

/-! ## strategies.py — Strategy9_AIMultiFactor.generate_signal
(lines 1561-1829)

The indicator/pattern sub-computations (RSI, ADX, Hurst, candlestick and
divergence detectors, regime detection, the short-term probability model)
are abstracted as oracle inputs at the granularity at which the decision
logic consumes them; the scoring tables of lines 1617-1758 and the verdict
of lines 1760-1829 are embedded branch for branch. -/

/-- Oracle inputs of `Strategy9_AIMultiFactor.generate_signal`. -/
structure MFOracles where
  bullish_patterns : ℚ
  bearish_patterns : ℚ
  regime : Regime
  has_volume : Bool
  momentum_quality_vol : ℚ
  rsi_last : ℚ
  prob_up : ℚ
  prob_down : ℚ
  hurst : ℚ
  above_cloud : Bool
  adx_last : ℚ
  di_plus_last : ℚ
  di_minus_last : ℚ
  curr_close : ℚ
  curr_atr : ℚ

/-- Regime bonus of lines 1619-1620 (identical for both sides). -/
def mfRegimeScore (r : Regime) : ℚ :=
  if r = Regime.trending then 10 else if r = Regime.volatile then 5 else 0

/-- `momentum_quality` of lines 1624-1630: the volume-based index when
volume is present, else `rsi[-1]/100`. -/
def mfMomentumQuality (o : MFOracles) : ℚ :=
  if o.has_volume then o.momentum_quality_vol else o.rsi_last / 100

/-- (bull, bear) momentum scores of lines 1632-1643. -/
def mfMomentumScores (o : MFOracles) : ℚ × ℚ :=
  let mq := mfMomentumQuality o
  if mq > 6/10 then (20, 0)
  else if mq < 4/10 then (0, 20)
  else if o.rsi_last > 50 then (10, 0)
  else (0, 10)

/-- Bullish probability score of lines 1654-1657: `int()` truncation of
`(probability_up - 50) * 5`, only when `probability_up > 55` (the argument
is then positive, so truncation is the floor). -/
def mfProbScoreBull (o : MFOracles) : ℚ :=
  if o.prob_up > 55 then ((⌊(o.prob_up - 50) * 5⌋ : ℤ) : ℚ) else 0

/-- Bearish probability score of lines 1658-1659. -/
def mfProbScoreBear (o : MFOracles) : ℚ :=
  if o.prob_down > 55 then ((⌊(o.prob_down - 50) * 5⌋ : ℤ) : ℚ) else 0

/-- (bull, bear) trend scores of lines 1666-1692 (`is_trending` is
`hurst > 0.5`, `above_cloud` from Ichimoku or the MA fallback). -/
def mfTrendScores (o : MFOracles) : ℚ × ℚ :=
  if o.hurst > 1/2 ∧ o.above_cloud then (15, 0)
  else if o.hurst > 1/2 ∧ ¬ o.above_cloud then (0, 15)
  else if o.above_cloud then (8, 0)
  else (0, 8)

/-- (bull, bear) ADX scores of lines 1700-1711. -/
def mfAdxScores (o : MFOracles) : ℚ × ℚ :=
  if o.adx_last > 25 ∧ o.di_plus_last > o.di_minus_last then (15, 0)
  else if o.adx_last > 25 ∧ o.di_minus_last > o.di_plus_last then (0, 15)
  else if o.adx_last > 20 then
    if o.di_plus_last > o.di_minus_last then (8, 0) else (0, 8)
  else (0, 0)

/-- `bullish_score` of lines 1720-1727. -/
def bullishScore (o : MFOracles) : ℚ :=
  o.bullish_patterns * 10 + mfRegimeScore o.regime + (mfMomentumScores o).1 +
    mfProbScoreBull o + (mfTrendScores o).1 + (mfAdxScores o).1

/-- `bearish_score` of lines 1729-1736. -/
def bearishScore (o : MFOracles) : ℚ :=
  o.bearish_patterns * 10 + mfRegimeScore o.regime + (mfMomentumScores o).2 +
    mfProbScoreBear o + (mfTrendScores o).2 + (mfAdxScores o).2

/-- Weak-sub-score diagnostics listed in the NO_TRADE reason
(lines 1812-1820), in source order. -/
inductive MFIssue where
  | noPattern
  | lowProbability (up down : ℚ)
  | noVolumeData
  | weakADX (v : ℚ)
deriving DecidableEq, Repr

/-- The `issues` list of lines 1812-1820. -/
def mfIssues (o : MFOracles) : List MFIssue :=
  (if o.bullish_patterns * 10 = 0 ∧ o.bearish_patterns * 10 = 0 then
     [MFIssue.noPattern] else []) ++
  (if mfProbScoreBull o < 15 ∧ mfProbScoreBear o < 15 then
     [MFIssue.lowProbability o.prob_up o.prob_down] else []) ++
  (if ¬ o.has_volume then [MFIssue.noVolumeData] else []) ++
  (if o.adx_last < 20 then [MFIssue.weakADX o.adx_last] else [])

/-- The per-factor detail list built by `create_reason` (lines 1764-1778):
labelled scores listed only when positive, in source order (the regime score
is not listed). -/
def mfDetails (patterns prob mom trend adx : ℚ) : List (String × ℚ) :=
  (if patterns > 0 then [("Pattern", patterns)] else []) ++
  (if prob > 0 then [("Prob", prob)] else []) ++
  (if mom > 0 then [("Mom", mom)] else []) ++
  (if trend > 0 then [("Trend", trend)] else []) ++
  (if adx > 0 then [("ADX", adx)] else [])

/-- Structured stand-ins for the reason strings of
`Strategy9_AIMultiFactor.generate_signal`. -/
inductive MFReason where
  | insufficientData (bars need : ℕ)
  | multiFactorVerdict (bullSide : Bool) (total : ℚ)
      (details : List (String × ℚ)) (regime : Regime)
  | scoreTooLow (maxScore minScore : ℚ) (bullSide : Bool) (issues : List MFIssue)
deriving DecidableEq, Repr

/-- Result dict of `Strategy9_AIMultiFactor.generate_signal` (the price
keys are absent in the NO_TRADE dicts). -/
structure MFResult where
  signal : SignalType
  entry_price : Option ℚ
  stop_loss : Option ℚ
  take_profit : Option ℚ
  atr : Option ℚ
  reason : MFReason

/-- `Strategy9_AIMultiFactor.generate_signal` (lines 1561-1829),
parameterised by `nBars = len(close)` and the sub-analysis oracles. -/
def strategy9_generate_signal (nBars : ℕ) (o : MFOracles)
    (atr_multiplier : ℚ) : MFResult :=
  if nBars < 100 then
    ⟨.NO_TRADE, none, none, none, none, .insufficientData nBars 100⟩
  else
    let bullish_score := bullishScore o
    let bearish_score := bearishScore o
    let min_score : ℚ := 35
    if bullish_score ≥ min_score ∧ bullish_score > bearish_score then
      ⟨.BUY, some o.curr_close,
        some (o.curr_close - atr_multiplier * o.curr_atr),
        some (o.curr_close + atr_multiplier * o.curr_atr * (5/2)),
        some o.curr_atr,
        .multiFactorVerdict true bullish_score
          (mfDetails (o.bullish_patterns * 10) (mfProbScoreBull o)
            (mfMomentumScores o).1 (mfTrendScores o).1 (mfAdxScores o).1)
          o.regime⟩
    else if bearish_score ≥ min_score ∧ bearish_score > bullish_score then
      ⟨.SELL, some o.curr_close,
        some (o.curr_close + atr_multiplier * o.curr_atr),
        some (o.curr_close - atr_multiplier * o.curr_atr * (5/2)),
        some o.curr_atr,
        .multiFactorVerdict false bearish_score
          (mfDetails (o.bearish_patterns * 10) (mfProbScoreBear o)
            (mfMomentumScores o).2 (mfTrendScores o).2 (mfAdxScores o).2)
          o.regime⟩
    else
      ⟨.NO_TRADE, none, none, none, none,
        .scoreTooLow (max bullish_score bearish_score) min_score
          (decide (bullish_score > bearish_score)) (mfIssues o)⟩

/-! ## Helper lemmas -/

/-- With the kill switch armed, `check_signal` returns at check 1 without
touching the state, wrapping the stored reason. -/
theorem check_signal_of_active (s : RMState) (clk : Clock) (sig : TradingSignal)
    (eq : ℚ) (pos : String → ℕ) (mi : MarketInfo)
    (h : s.kill_switch_active = true) :
    check_signal s clk sig eq pos mi =
      ⟨s, false, .killSwitchOn s.kill_switch_reason, 0⟩ := by
  simp [check_signal, h]

/-! ## Claim C1 -/

/-- C1: the ten risk checks of `check_signal` run in the fixed
short-circuiting order of §4.5 — `check_signal` coincides on every input
with the ordered first-failure reading `checkSignalSpec` — and in
particular, whenever checks 1-2 pass and both the per-symbol position limit
(check 3) and the spread limit (check 6) are violated, the rejection carries
the position-count reason and never the spread reason. -/
theorem claim1_check_order :
    (∀ (s : RMState) (clk : Clock) (sig : TradingSignal) (eq : ℚ)
        (pos : String → ℕ) (mi : MarketInfo),
      check_signal s clk sig eq pos mi = checkSignalSpec s clk sig eq pos mi) ∧
    (∀ (s : RMState) (clk : Clock) (sig : TradingSignal) (eq : ℚ)
        (pos : String → ℕ) (mi : MarketInfo),
      s.kill_switch_active = false →
      sig.signal ≠ SignalType.NO_TRADE →
      pos sig.symbol ≥ TradingConfig.MAX_POSITIONS_PER_SYMBOL →
      mi.spread.getD 0 > TradingConfig.MAX_SPREAD_POINTS →
      check_signal s clk sig eq pos mi =
        ⟨s, false, .maxPositions sig.symbol (pos sig.symbol)
            TradingConfig.MAX_POSITIONS_PER_SYMBOL, 0⟩ ∧
      ∀ sp lim, (check_signal s clk sig eq pos mi).reason ≠ .spreadTooHigh sp lim) := by
  constructor
  · intro s clk sig eq pos mi
    by_cases h1 : s.kill_switch_active = true
    · simp [check_signal, checkSignalSpec, firstFail, h1]
    by_cases h2 : sig.signal = SignalType.NO_TRADE
    · simp [check_signal, checkSignalSpec, firstFail, h1, h2]
    by_cases h3 : pos sig.symbol ≥ TradingConfig.MAX_POSITIONS_PER_SYMBOL
    · simp [check_signal, checkSignalSpec, firstFail, h1, h2, h3]
    by_cases h4 : ((s.daily_stats clk.today).getD TradeStats.init).total_trades ≥
        TradingConfig.MAX_TRADES_PER_DAY
    · simp [check_signal, checkSignalSpec, firstFail, h1, h2, h3, h4]
    by_cases h5 : ((s.daily_stats clk.today).getD TradeStats.init).symbols_traded
        sig.symbol ≥ TradingConfig.MAX_TRADES_PER_SYMBOL_PER_DAY
    · simp [check_signal, checkSignalSpec, firstFail, h1, h2, h3, h4, h5]
    by_cases h6 : mi.spread.getD 0 > TradingConfig.MAX_SPREAD_POINTS
    · simp [check_signal, checkSignalSpec, firstFail, h1, h2, h3, h4, h5, h6]
    by_cases h7 : |((s.daily_stats clk.today).getD TradeStats.init).total_loss| ≥
        eq * (TradingConfig.DAILY_LOSS_LIMIT_PERCENT / 100)
    · simp [check_signal, checkSignalSpec, firstFail, h1, h2, h3, h4, h5, h6, h7]
    by_cases h8 : |((s.weekly_stats clk.week).getD TradeStats.init).total_loss| ≥
        eq * (TradingConfig.WEEKLY_LOSS_LIMIT_PERCENT / 100)
    · simp [check_signal, checkSignalSpec, firstFail, h1, h2, h3, h4, h5, h6, h7, h8]
    by_cases h9 : TradingConfig.TRADING_START_HOUR ≤ clk.hour ∧
        clk.hour ≤ TradingConfig.TRADING_END_HOUR
    swap
    · simp [check_signal, checkSignalSpec, firstFail, h1, h2, h3, h4, h5, h6, h7, h8, h9]
    by_cases h10 : calculate_position_size eq sig.risk_points mi ≤ 0
    · simp [check_signal, checkSignalSpec, firstFail, h1, h2, h3, h4, h5, h6, h7, h8,
        h9, h10]
    · simp [check_signal, checkSignalSpec, firstFail, h1, h2, h3, h4, h5, h6, h7, h8,
        h9, h10]
  · intro s clk sig eq pos mi h1 h2 h3 h6
    have hres : check_signal s clk sig eq pos mi =
        ⟨s, false, .maxPositions sig.symbol (pos sig.symbol)
            TradingConfig.MAX_POSITIONS_PER_SYMBOL, 0⟩ := by
      simp [check_signal, h1, h2, h3]
    exact ⟨hres, by simp [hres]⟩

/-- Witness for C1 at a concrete scenario violating checks 3 and 6 at once. -/
theorem claim1_witness :
    check_signal RMState.init ⟨("2024-01-02"), ("2024-W01"), 12⟩
        ⟨("EURUSD"), .BUY, 1/100⟩ 10000 (fun _ => 1)
        ⟨some 50, none, none, none, none⟩ =
      ⟨RMState.init, false, .maxPositions ("EURUSD") 1
          TradingConfig.MAX_POSITIONS_PER_SYMBOL, 0⟩ ∧
    ∀ sp lim,
      (check_signal RMState.init ⟨("2024-01-02"), ("2024-W01"), 12⟩
          ⟨("EURUSD"), .BUY, 1/100⟩ 10000 (fun _ => 1)
          ⟨some 50, none, none, none, none⟩).reason ≠ .spreadTooHigh sp lim :=
  claim1_check_order.2 RMState.init ⟨("2024-01-02"), ("2024-W01"), 12⟩
    ⟨("EURUSD"), .BUY, 1/100⟩ 10000 (fun _ => 1)
    ⟨some 50, none, none, none, none⟩
    (by decide) (by decide) (by decide) (by decide)

/-- `check_signal` either leaves the state untouched, or arms the kill
switch at check 7 or check 8 (returning the freshly stored reason). -/
theorem check_signal_state_cases (s : RMState) (clk : Clock)
    (sig : TradingSignal) (eq : ℚ) (pos : String → ℕ) (mi : MarketInfo) :
    (check_signal s clk sig eq pos mi).state = s ∨
    (∃ a b,
      (check_signal s clk sig eq pos mi).state =
        activate_kill_switch s (KillReason.dailyLimit a b) ∧
      (check_signal s clk sig eq pos mi).reason =
        .storedKill (KillReason.dailyLimit a b)) ∨
    (∃ a b,
      (check_signal s clk sig eq pos mi).state =
        activate_kill_switch s (KillReason.weeklyLimit a b) ∧
      (check_signal s clk sig eq pos mi).reason =
        .storedKill (KillReason.weeklyLimit a b)) := by
  by_cases h1 : s.kill_switch_active = true
  · left; simp [check_signal, h1]
  by_cases h2 : sig.signal = SignalType.NO_TRADE
  · left; simp [check_signal, h1, h2]
  by_cases h3 : pos sig.symbol ≥ TradingConfig.MAX_POSITIONS_PER_SYMBOL
  · left; simp [check_signal, h1, h2, h3]
  by_cases h4 : ((s.daily_stats clk.today).getD TradeStats.init).total_trades ≥
      TradingConfig.MAX_TRADES_PER_DAY
  · left; simp [check_signal, h1, h2, h3, h4]
  by_cases h5 : ((s.daily_stats clk.today).getD TradeStats.init).symbols_traded
      sig.symbol ≥ TradingConfig.MAX_TRADES_PER_SYMBOL_PER_DAY
  · left; simp [check_signal, h1, h2, h3, h4, h5]
  by_cases h6 : mi.spread.getD 0 > TradingConfig.MAX_SPREAD_POINTS
  · left; simp [check_signal, h1, h2, h3, h4, h5, h6]
  by_cases h7 : |((s.daily_stats clk.today).getD TradeStats.init).total_loss| ≥
      eq * (TradingConfig.DAILY_LOSS_LIMIT_PERCENT / 100)
  · right; left
    exact ⟨|((s.daily_stats clk.today).getD TradeStats.init).total_loss|,
      eq * (TradingConfig.DAILY_LOSS_LIMIT_PERCENT / 100),
      by simp [check_signal, h1, h2, h3, h4, h5, h6, h7],
      by simp [check_signal, h1, h2, h3, h4, h5, h6, h7]⟩
  by_cases h8 : |((s.weekly_stats clk.week).getD TradeStats.init).total_loss| ≥
      eq * (TradingConfig.WEEKLY_LOSS_LIMIT_PERCENT / 100)
  · right; right
    exact ⟨|((s.weekly_stats clk.week).getD TradeStats.init).total_loss|,
      eq * (TradingConfig.WEEKLY_LOSS_LIMIT_PERCENT / 100),
      by simp [check_signal, h1, h2, h3, h4, h5, h6, h7, h8],
      by simp [check_signal, h1, h2, h3, h4, h5, h6, h7, h8]⟩
  by_cases h9 : TradingConfig.TRADING_START_HOUR ≤ clk.hour ∧
      clk.hour ≤ TradingConfig.TRADING_END_HOUR
  swap
  · left; simp [check_signal, h1, h2, h3, h4, h5, h6, h7, h8, h9]
  by_cases h10 : calculate_position_size eq sig.risk_points mi ≤ 0
  · left; simp [check_signal, h1, h2, h3, h4, h5, h6, h7, h8, h9, h10]
  · left; simp [check_signal, h1, h2, h3, h4, h5, h6, h7, h8, h9, h10]

/-! ## Claim C2 -/

/-- C2: the kill switch is armed only by the loss checks 7-8 of
`check_signal` and never cleared by `check_signal` or `record_trade`; while
it is armed every `check_signal` call — for any arguments — returns
`(false, r, 0)` with the check-1 reason built from the unchanged stored
state, so all subsequent calls agree; only `deactivate_kill_switch` clears
it. -/
theorem claim2_kill_switch :
    (∀ (s : RMState) (clk : Clock) (sig : TradingSignal) (eq : ℚ)
        (pos : String → ℕ) (mi : MarketInfo),
      s.kill_switch_active = true →
      check_signal s clk sig eq pos mi =
        ⟨s, false, .killSwitchOn s.kill_switch_reason, 0⟩) ∧
    (∀ (s : RMState) (clk : Clock) (sym : String) (pl : ℚ),
      (record_trade s clk sym pl).kill_switch_active = s.kill_switch_active ∧
      (record_trade s clk sym pl).kill_switch_reason = s.kill_switch_reason) ∧
    (∀ (s : RMState) (clk : Clock) (sig : TradingSignal) (eq : ℚ)
        (pos : String → ℕ) (mi : MarketInfo),
      s.kill_switch_active = false →
      (check_signal s clk sig eq pos mi).state.kill_switch_active = true →
      ∃ r, (check_signal s clk sig eq pos mi).state.kill_switch_reason = r ∧
        (check_signal s clk sig eq pos mi).reason = .storedKill r ∧
        ((∃ a b, r = KillReason.dailyLimit a b) ∨
         (∃ a b, r = KillReason.weeklyLimit a b))) ∧
    (∀ s : RMState, (deactivate_kill_switch s).kill_switch_active = false) := by
  refine ⟨fun s clk sig eq pos mi h => check_signal_of_active s clk sig eq pos mi h,
    fun s clk sym pl => ⟨rfl, rfl⟩, ?_, fun s => rfl⟩
  intro s clk sig eq pos mi h0 harmed
  rcases check_signal_state_cases s clk sig eq pos mi with hsame | harm | harm
  · rw [hsame, h0] at harmed
    exact absurd harmed (by simp)
  · obtain ⟨a, b, hstate, hreason⟩ := harm
    exact ⟨KillReason.dailyLimit a b, by rw [hstate]; rfl, hreason,
      Or.inl ⟨a, b, rfl⟩⟩
  · obtain ⟨a, b, hstate, hreason⟩ := harm
    exact ⟨KillReason.weeklyLimit a b, by rw [hstate]; rfl, hreason,
      Or.inr ⟨a, b, rfl⟩⟩

/-- Witness for C2: an armed state rejects a concrete signal untouched. -/
theorem claim2_witness :
    check_signal (activate_kill_switch RMState.init (KillReason.dailyLimit 300 300))
        ⟨("2024-01-02"), ("2024-W01"), 12⟩ ⟨("EURUSD"), .BUY, 1/100⟩ 10000
        (fun _ => 0) ⟨some 1, none, none, none, none⟩ =
      ⟨activate_kill_switch RMState.init (KillReason.dailyLimit 300 300), false,
        .killSwitchOn (KillReason.dailyLimit 300 300), 0⟩ :=
  claim2_kill_switch.1
    (activate_kill_switch RMState.init (KillReason.dailyLimit 300 300))
    ⟨("2024-01-02"), ("2024-W01"), 12⟩ ⟨("EURUSD"), .BUY, 1/100⟩ 10000
    (fun _ => 0) ⟨some 1, none, none, none, none⟩ rfl

/-! ## Claim C3

The claim asserts that a `record_trade` call with `profit_loss = 0`
increments neither `winning_trades` nor `losing_trades`.  In the source
(src/risk_manager.py lines 188-193 and 205-210) the update is a two-way
`if profit_loss > 0 ... else ...`, so a zero-profit trade falls into the
`else` branch and increments `losing_trades` (adding 0 to `total_loss`). -/

/-- Counterexample to C3: recording a single zero-profit trade on a fresh
`RiskManager` leaves `losing_trades = 1` in the day's stats — it was
incremented, contradicting the claim (`winning_trades` stays 0). -/
theorem claim3_counterexample :
    ¬ ((((record_trade RMState.init ⟨("2024-01-02"), ("2024-W01"), 12⟩
            ("EURUSD") 0).daily_stats ("2024-01-02")).getD
          TradeStats.init).losing_trades =
        (((RMState.init).daily_stats ("2024-01-02")).getD
          TradeStats.init).losing_trades) := by
  simp [record_trade, updateStats, RMState.init, TradeStats.init]

/-- C3 amended: a `record_trade` call with `profit_loss = 0` increments
`total_trades` and the symbol's counter in both the daily and the weekly
stats, leaves `winning_trades`, `total_profit` and `total_loss` unchanged
(`total_loss` gains 0), but increments `losing_trades` in both — the
zero-profit trade is counted as a loss. -/
theorem claim3_zero_profit_trade (s : RMState) (clk : Clock) (sym : String) :
    ((((record_trade s clk sym 0).daily_stats clk.today).getD TradeStats.init) =
      { total_trades :=
          ((s.daily_stats clk.today).getD TradeStats.init).total_trades + 1
        winning_trades :=
          ((s.daily_stats clk.today).getD TradeStats.init).winning_trades
        losing_trades :=
          ((s.daily_stats clk.today).getD TradeStats.init).losing_trades + 1
        total_profit :=
          ((s.daily_stats clk.today).getD TradeStats.init).total_profit
        total_loss :=
          ((s.daily_stats clk.today).getD TradeStats.init).total_loss
        symbols_traded := fun k =>
          if k = sym then
            ((s.daily_stats clk.today).getD TradeStats.init).symbols_traded k + 1
          else ((s.daily_stats clk.today).getD TradeStats.init).symbols_traded k }) ∧
    ((((record_trade s clk sym 0).weekly_stats clk.week).getD TradeStats.init) =
      { total_trades :=
          ((s.weekly_stats clk.week).getD TradeStats.init).total_trades + 1
        winning_trades :=
          ((s.weekly_stats clk.week).getD TradeStats.init).winning_trades
        losing_trades :=
          ((s.weekly_stats clk.week).getD TradeStats.init).losing_trades + 1
        total_profit :=
          ((s.weekly_stats clk.week).getD TradeStats.init).total_profit
        total_loss :=
          ((s.weekly_stats clk.week).getD TradeStats.init).total_loss
        symbols_traded := fun k =>
          if k = sym then
            ((s.weekly_stats clk.week).getD TradeStats.init).symbols_traded k + 1
          else ((s.weekly_stats clk.week).getD TradeStats.init).symbols_traded k }) := by
  constructor <;> simp [record_trade, updateStats]

/-! ## Claim C10 -/

/-- C10: on a `RiskManager` with no trade recorded for the current day and
`account_equity ≤ 0`, any non-NO_TRADE signal that passes checks 1-6 trips
the daily-loss check: `abs(0) ≥ equity × 3/100` holds, so `check_signal`
arms the kill switch with the daily-limit reason, returns
`(false, reason, 0)`, and every subsequent call on the resulting state is
rejected. -/
theorem claim10_nonpositive_equity_arms_kill_switch (s : RMState) (clk : Clock)
    (sig : TradingSignal) (eq : ℚ) (pos : String → ℕ) (mi : MarketInfo)
    (h1 : s.kill_switch_active = false)
    (h2 : sig.signal ≠ SignalType.NO_TRADE)
    (h3 : pos sig.symbol < TradingConfig.MAX_POSITIONS_PER_SYMBOL)
    (h4 : s.daily_stats clk.today = none)
    (h6 : ¬ mi.spread.getD 0 > TradingConfig.MAX_SPREAD_POINTS)
    (heq : eq ≤ 0) :
    check_signal s clk sig eq pos mi =
      ⟨activate_kill_switch s
          (KillReason.dailyLimit 0 (eq * (TradingConfig.DAILY_LOSS_LIMIT_PERCENT / 100))),
        false,
        .storedKill
          (KillReason.dailyLimit 0 (eq * (TradingConfig.DAILY_LOSS_LIMIT_PERCENT / 100))),
        0⟩ ∧
    (check_signal s clk sig eq pos mi).state.kill_switch_active = true ∧
    ∀ (clk2 : Clock) (sig2 : TradingSignal) (eq2 : ℚ) (pos2 : String → ℕ)
        (mi2 : MarketInfo),
      (check_signal (check_signal s clk sig eq pos mi).state clk2 sig2 eq2 pos2
          mi2).ok = false := by
  have hlim : |(TradeStats.init).total_loss| ≥
      eq * (TradingConfig.DAILY_LOSS_LIMIT_PERCENT / 100) := by
    simp [TradeStats.init, TradingConfig.DAILY_LOSS_LIMIT_PERCENT]
    nlinarith
  have hres : check_signal s clk sig eq pos mi =
      ⟨activate_kill_switch s
          (KillReason.dailyLimit 0 (eq * (TradingConfig.DAILY_LOSS_LIMIT_PERCENT / 100))),
        false,
        .storedKill
          (KillReason.dailyLimit 0 (eq * (TradingConfig.DAILY_LOSS_LIMIT_PERCENT / 100))),
        0⟩ := by
    simp [check_signal, h1, h2, not_le.2 h3, h4, h6, TradeStats.init,
      TradingConfig.MAX_TRADES_PER_DAY, TradingConfig.MAX_TRADES_PER_SYMBOL_PER_DAY]
    simp [TradeStats.init] at hlim
    simp [hlim]
  refine ⟨hres, ?_, ?_⟩
  · rw [hres]
    rfl
  · intro clk2 sig2 eq2 pos2 mi2
    rw [hres]
    rw [check_signal_of_active _ _ _ _ _ _ rfl]

/-- Witness for C10 on a fresh manager with zero equity. -/
theorem claim10_witness :
    check_signal RMState.init ⟨("2024-01-02"), ("2024-W01"), 12⟩
        ⟨("EURUSD"), .BUY, 1/100⟩ 0 (fun _ => 0)
        ⟨some 1, none, none, none, none⟩ =
      ⟨activate_kill_switch RMState.init
          (KillReason.dailyLimit 0 (0 * (TradingConfig.DAILY_LOSS_LIMIT_PERCENT / 100))),
        false,
        .storedKill
          (KillReason.dailyLimit 0 (0 * (TradingConfig.DAILY_LOSS_LIMIT_PERCENT / 100))),
        0⟩ ∧
    (check_signal RMState.init ⟨("2024-01-02"), ("2024-W01"), 12⟩
        ⟨("EURUSD"), .BUY, 1/100⟩ 0 (fun _ => 0)
        ⟨some 1, none, none, none, none⟩).state.kill_switch_active = true ∧
    ∀ (clk2 : Clock) (sig2 : TradingSignal) (eq2 : ℚ) (pos2 : String → ℕ)
        (mi2 : MarketInfo),
      (check_signal
          (check_signal RMState.init ⟨("2024-01-02"), ("2024-W01"), 12⟩
              ⟨("EURUSD"), .BUY, 1/100⟩ 0 (fun _ => 0)
              ⟨some 1, none, none, none, none⟩).state clk2 sig2 eq2 pos2
          mi2).ok = false :=
  claim10_nonpositive_equity_arms_kill_switch RMState.init
    ⟨("2024-01-02"), ("2024-W01"), 12⟩ ⟨("EURUSD"), .BUY, 1/100⟩ 0 (fun _ => 0)
    ⟨some 1, none, none, none, none⟩ rfl (by decide) (by decide) rfl (by decide)
    le_rfl

/-! ## Claim C4

The claim requires `SignalEngine.generate_signal` to convert every failure
into a NO_TRADE `TradingSignal` "for all nine strategy identifiers,
including the ULTIMATE_ACCURACY and AI_MULTI_FACTOR composites".  But the
`StrategyType` enum of src/config.py defines only seven members, while
`SignalEngine.__init__` (src/signal_engine.py lines 81-91) accesses
`StrategyType.ULTIMATE_ACCURACY` and `StrategyType.AI_MULTI_FACTOR` when
building `strategy_map`, so constructing a `SignalEngine` raises an
`AttributeError` outside any `try` block — `generate_signal` is never
reached.  The theorem evaluates the embedded name resolution at this
failing input. -/

/-- C4 (code bug): `ULTIMATE_ACCURACY` and `AI_MULTI_FACTOR` are not
members of the `StrategyType` enum, and evaluating the attribute accesses
of `SignalEngine.__init__` raises `AttributeError: ULTIMATE_ACCURACY`
instead of completing construction. -/
theorem claim4_signal_engine_init_raises :
    ("ULTIMATE_ACCURACY") ∉ strategyTypeMembers ∧
    ("AI_MULTI_FACTOR") ∉ strategyTypeMembers ∧
    signalEngineInit = .error ("ULTIMATE_ACCURACY") :=
  ⟨by decide, by decide, rfl⟩

/-! ## Claim C5 -/

/-- C5: on fewer than 100 closing bars, `calculate_ultimate_score` returns
before any sub-computation with `ultimate_accuracy = 50.0`,
`confidence_level = 'very_low'`, `recommendation = 'wait'` and a populated
insufficient-data message (carrying the bar count); the function is total,
so no exception can escape. -/
theorem claim5_insufficient_bars (nBars : ℕ) (h : nBars < 100)
    (o : UltimateOracles) :
    calculate_ultimate_score nBars o =
      { ultimate_accuracy := 50
        confidence_level := "very_low"
        direction := "neutral"
        recommendation := "wait"
        error := some nBars
        composite_accuracy := none } ∧
    (calculate_ultimate_score nBars o).error ≠ none := by
  refine ⟨by simp [calculate_ultimate_score, h], ?_⟩
  simp [calculate_ultimate_score, h]

/-- Witness for C5 at 50 bars. -/
theorem claim5_witness :
    calculate_ultimate_score 50 ⟨0, 0, 0, .ranging, false, 0, true, false, false⟩ =
      { ultimate_accuracy := 50
        confidence_level := "very_low"
        direction := "neutral"
        recommendation := "wait"
        error := some 50
        composite_accuracy := none } ∧
    (calculate_ultimate_score 50
        ⟨0, 0, 0, .ranging, false, 0, true, false, false⟩).error ≠ none :=
  claim5_insufficient_bars 50 (by norm_num)
    ⟨0, 0, 0, .ranging, false, 0, true, false, false⟩

/-! ## Claim C7

The composite is combined with exactly the claimed weights
(30/30/20/10/5/5), and the internal `ultimate_accuracy` variable is the
composite capped at 100 — but the *returned* `ultimate_accuracy` dict entry
is `round(min(composite, 100), 2)` (src/strategies.py line 1060), i.e. the
capped composite rounded to two decimals, which differs from the capped
composite whenever the latter has a nonzero third decimal. -/

/-- Oracle values reachable on real data (in-cloud Ichimoku gives 12.5,
whose 5% weight puts a 5 in the third decimal of the composite). -/
def ultimateOraclesC7 : UltimateOracles :=
  ⟨0, 3, 0, .ranging, false, 3/10, false, false, false⟩

/-- Evaluation of the two accuracy entries of the result dict in the
≥100-bar branch. -/
theorem ultimate_score_eval (nBars : ℕ) (o : UltimateOracles)
    (h : ¬ nBars < 100) :
    (calculate_ultimate_score nBars o).ultimate_accuracy =
      pyRound2 (min (ultimateComposite o) 100) ∧
    (calculate_ultimate_score nBars o).composite_accuracy =
      some (pyRound2 (ultimateComposite o)) := by
  constructor <;> simp [calculate_ultimate_score, h]

/-- Counterexample to C7: at these sub-scores the composite is 3.025, but
the returned `ultimate_accuracy` is `round(3.025, 2) = 3.02`, not the
capped composite. -/
theorem claim7_counterexample :
    ultimateComposite ultimateOraclesC7 = 121/40 ∧
    (calculate_ultimate_score 150 ultimateOraclesC7).ultimate_accuracy = 151/50 ∧
    (calculate_ultimate_score 150 ultimateOraclesC7).ultimate_accuracy ≠
      min (ultimateComposite ultimateOraclesC7) 100 := by
  have hcomp : ultimateComposite ultimateOraclesC7 = 121/40 := by
    norm_num [ultimateComposite, ultimateOraclesC7, aiScore, fibScore,
      hurstScore, ichimokuScore, show regimeScore Regime.ranging = 0 from rfl]
  have heval := ultimate_score_eval 150 ultimateOraclesC7 (by norm_num)
  have hmin : min (ultimateComposite ultimateOraclesC7) 100 = 121/40 := by
    rw [hcomp, min_eq_left (by norm_num : (121/40 : ℚ) ≤ 100)]
  have hfl : ⌊(121/40 : ℚ) * 100⌋ = 302 := by
    rw [Int.floor_eq_iff]
    norm_num
  have hval : (calculate_ultimate_score 150 ultimateOraclesC7).ultimate_accuracy
      = 151/50 := by
    rw [heval.1, hmin]
    unfold pyRound2 pyRound
    rw [hfl]
    norm_num
  exact ⟨hcomp, hval, by rw [hval, hmin]; norm_num⟩

/-- C7 amended: on at least 100 bars the composite equals
0.30·short + 0.30·long + 0.20·AI + 0.10·Fibonacci + 0.05·Hurst +
0.05·Ichimoku (exactly these weights), and the returned
`ultimate_accuracy` is this composite capped at 100 **and then rounded to
two decimals** (Python banker's rounding), the rounding being the only
deviation from the claim. -/
theorem claim7_composite_weights (nBars : ℕ) (h : 100 ≤ nBars)
    (o : UltimateOracles) :
    ultimateComposite o =
      (30/100) * o.short_prob_up + (30/100) * o.long_prob_up +
      (20/100) * aiScore o + (10/100) * fibScore o +
      (5/100) * hurstScore o + (5/100) * ichimokuScore o ∧
    (calculate_ultimate_score nBars o).ultimate_accuracy =
      pyRound2 (min (ultimateComposite o) 100) ∧
    (calculate_ultimate_score nBars o).composite_accuracy =
      some (pyRound2 (ultimateComposite o)) := by
  have h' : ¬ nBars < 100 := by omega
  refine ⟨by unfold ultimateComposite; ring, ?_, ?_⟩ <;>
    simp [calculate_ultimate_score, h']

/-- Witness for C7's amended statement at 150 bars. -/
theorem claim7_witness :
    ultimateComposite ultimateOraclesC7 =
      (30/100) * (ultimateOraclesC7).short_prob_up +
      (30/100) * (ultimateOraclesC7).long_prob_up +
      (20/100) * aiScore ultimateOraclesC7 +
      (10/100) * fibScore ultimateOraclesC7 +
      (5/100) * hurstScore ultimateOraclesC7 +
      (5/100) * ichimokuScore ultimateOraclesC7 ∧
    (calculate_ultimate_score 150 ultimateOraclesC7).ultimate_accuracy =
      pyRound2 (min (ultimateComposite ultimateOraclesC7) 100) ∧
    (calculate_ultimate_score 150 ultimateOraclesC7).composite_accuracy =
      some (pyRound2 (ultimateComposite ultimateOraclesC7)) :=
  claim7_composite_weights 150 (by norm_num) ultimateOraclesC7

/-! ## Claim C8 -/

/-- Market info used by the spec's concrete sizing scenario: EURUSD-style
point 0.00001, tick value 1.0, broker minimum 0.01, step 0.01. -/
def marketInfoC8 : MarketInfo :=
  ⟨none, some (1/100000), some 1, some (1/100), some (1/100)⟩

/-- C8: with nonzero divisors, `calculate_position_size` computes
`riskMoney = equity × RISK_PER_TRADE_PERCENT/100`,
`stopDistancePoints = stopDistance/point`,
`lot = riskMoney/(stopDistancePoints × tickValue)`, clamps to the broker
minimum volume and rounds to the nearest volume step; and at equity 10000,
risk 1%, a 500-point stop (0.005 at point 0.00001) and tick value 1.0 the
pre-rounding lot — and the returned lot — is exactly 0.20. -/
theorem claim8_position_sizing :
    (∀ (equity stop_distance : ℚ) (mi : MarketInfo),
      mi.point.getD (1/100000) ≠ 0 →
      (stop_distance / mi.point.getD (1/100000)) * mi.tick_value.getD 1 ≠ 0 →
      mi.volume_step.getD (1/100) ≠ 0 →
      calculate_position_size equity stop_distance mi =
        (pyRound
            (max (mi.volume_min.getD (1/100))
              ((equity * (TradingConfig.RISK_PER_TRADE_PERCENT / 100)) /
                ((stop_distance / mi.point.getD (1/100000)) *
                  mi.tick_value.getD 1)) /
              mi.volume_step.getD (1/100)) : ℚ) *
          mi.volume_step.getD (1/100)) ∧
    (10000 * (TradingConfig.RISK_PER_TRADE_PERCENT / 100)) /
        (((1/200 : ℚ) / ((marketInfoC8).point.getD (1/100000))) *
          (marketInfoC8).tick_value.getD 1) = 1/5 ∧
    calculate_position_size 10000 (1/200) marketInfoC8 = 1/5 := by
  have hgen : ∀ (equity stop_distance : ℚ) (mi : MarketInfo),
      mi.point.getD (1/100000) ≠ 0 →
      (stop_distance / mi.point.getD (1/100000)) * mi.tick_value.getD 1 ≠ 0 →
      mi.volume_step.getD (1/100) ≠ 0 →
      calculate_position_size equity stop_distance mi =
        (pyRound
            (max (mi.volume_min.getD (1/100))
              ((equity * (TradingConfig.RISK_PER_TRADE_PERCENT / 100)) /
                ((stop_distance / mi.point.getD (1/100000)) *
                  mi.tick_value.getD 1)) /
              mi.volume_step.getD (1/100)) : ℚ) *
          mi.volume_step.getD (1/100) := by
    intro equity stop_distance mi hp hd hs
    simp only [calculate_position_size]
    rw [if_neg hp, if_neg hd, if_neg hs]
  have hpre : (10000 * (TradingConfig.RISK_PER_TRADE_PERCENT / 100)) /
      (((1/200 : ℚ) / ((marketInfoC8).point.getD (1/100000))) *
        (marketInfoC8).tick_value.getD 1) = 1/5 := by
    norm_num [marketInfoC8, TradingConfig.RISK_PER_TRADE_PERCENT]
  refine ⟨hgen, hpre, ?_⟩
  rw [hgen 10000 (1/200) marketInfoC8 (by norm_num [marketInfoC8])
    (by norm_num [marketInfoC8]) (by norm_num [marketInfoC8])]
  rw [hpre]
  have hmax : max ((marketInfoC8).volume_min.getD (1/100)) (1/5 : ℚ) = 1/5 := by
    rw [max_eq_right]
    norm_num [marketInfoC8]
  rw [hmax]
  have h20 : (1/5 : ℚ) / (marketInfoC8).volume_step.getD (1/100) = 20 := by
    norm_num [marketInfoC8]
  rw [h20]
  have hr : pyRound (20 : ℚ) = 20 := by
    have : ⌊(20 : ℚ)⌋ = 20 := by norm_num
    norm_num [pyRound, this]
  rw [hr]
  norm_num [marketInfoC8]

/-- Witness for C8 at the spec's concrete scenario. -/
theorem claim8_witness :
    calculate_position_size 10000 (1/200) marketInfoC8 =
      (pyRound
          (max ((marketInfoC8).volume_min.getD (1/100))
            ((10000 * (TradingConfig.RISK_PER_TRADE_PERCENT / 100)) /
              (((1/200 : ℚ) / (marketInfoC8).point.getD (1/100000)) *
                (marketInfoC8).tick_value.getD 1)) /
            (marketInfoC8).volume_step.getD (1/100)) : ℚ) *
        (marketInfoC8).volume_step.getD (1/100) :=
  claim8_position_sizing.1 10000 (1/200) marketInfoC8
    (by norm_num [marketInfoC8]) (by norm_num [marketInfoC8])
    (by norm_num [marketInfoC8])

/-! ## Claim C6 -/

/-- C6: on at least 100 bars, `Strategy9_AIMultiFactor.generate_signal`
returns BUY iff the bullish total is ≥ 35 and strictly exceeds the bearish
total, SELL iff the bearish total is ≥ 35 and strictly exceeds the bullish
total, and otherwise NO_TRADE whose reason carries the best score, the
leading side and the weak-sub-score diagnostics. -/
theorem claim6_multifactor_verdict (nBars : ℕ) (h : 100 ≤ nBars)
    (o : MFOracles) (m : ℚ) :
    ((strategy9_generate_signal nBars o m).signal = .BUY ↔
      bullishScore o ≥ 35 ∧ bullishScore o > bearishScore o) ∧
    ((strategy9_generate_signal nBars o m).signal = .SELL ↔
      bearishScore o ≥ 35 ∧ bearishScore o > bullishScore o) ∧
    (¬ (bullishScore o ≥ 35 ∧ bullishScore o > bearishScore o) →
     ¬ (bearishScore o ≥ 35 ∧ bearishScore o > bullishScore o) →
      (strategy9_generate_signal nBars o m).signal = .NO_TRADE ∧
      (strategy9_generate_signal nBars o m).reason =
        .scoreTooLow (max (bullishScore o) (bearishScore o)) 35
          (decide (bullishScore o > bearishScore o)) (mfIssues o)) := by
  have h' : ¬ nBars < 100 := by omega
  by_cases hb : bullishScore o ≥ 35 ∧ bullishScore o > bearishScore o
  · have hnotSell : ¬ (bearishScore o ≥ 35 ∧ bearishScore o > bullishScore o) :=
      fun hs => absurd hb.2 (not_lt.2 (le_of_lt hs.2))
    refine ⟨?_, ?_, fun hcontra _ => absurd hb hcontra⟩ <;>
      simp [strategy9_generate_signal, h', hb, hnotSell]
  by_cases hs : bearishScore o ≥ 35 ∧ bearishScore o > bullishScore o
  · refine ⟨?_, ?_, fun _ hcontra => absurd hs hcontra⟩ <;>
      simp [strategy9_generate_signal, h', hb, hs]
  · refine ⟨?_, ?_, fun _ _ => ⟨?_, ?_⟩⟩ <;>
      simp [strategy9_generate_signal, h', hb, hs]

/-- Concrete oracle values for the C6 witness: no patterns, no volume,
weak momentum and trend — both totals below 35. -/
def mfOraclesC6 : MFOracles :=
  ⟨0, 0, .ranging, false, 0, 0, 50, 50, 0, false, 0, 0, 0, 1, 1/100⟩

/-- Witness for C6 at 100 bars and the concrete oracles above. -/
theorem claim6_witness :
    ((strategy9_generate_signal 100 mfOraclesC6 2).signal = .BUY ↔
      bullishScore mfOraclesC6 ≥ 35 ∧
        bullishScore mfOraclesC6 > bearishScore mfOraclesC6) ∧
    ((strategy9_generate_signal 100 mfOraclesC6 2).signal = .SELL ↔
      bearishScore mfOraclesC6 ≥ 35 ∧
        bearishScore mfOraclesC6 > bullishScore mfOraclesC6) ∧
    (¬ (bullishScore mfOraclesC6 ≥ 35 ∧
        bullishScore mfOraclesC6 > bearishScore mfOraclesC6) →
     ¬ (bearishScore mfOraclesC6 ≥ 35 ∧
        bearishScore mfOraclesC6 > bullishScore mfOraclesC6) →
      (strategy9_generate_signal 100 mfOraclesC6 2).signal = .NO_TRADE ∧
      (strategy9_generate_signal 100 mfOraclesC6 2).reason =
        .scoreTooLow (max (bullishScore mfOraclesC6) (bearishScore mfOraclesC6))
          35 (decide (bullishScore mfOraclesC6 > bearishScore mfOraclesC6))
          (mfIssues mfOraclesC6)) :=
  claim6_multifactor_verdict 100 (by norm_num) mfOraclesC6 2

/-! ## Claim C9

The claim quantifies over *every* index of the returned arrays.  At index 0
the loop of src/strategies.py lines 150-165 never runs: `supertrend[0]`
keeps the `np.zeros_like` initialisation 0 while `direction[0]` keeps the
`np.ones_like` initialisation 1, so the line value at index 0 is neither
band (the bands are nonzero for generic inputs).  From index 1 on the claim
holds exactly. -/

/-- Counterexample to C9 on the one-bar input high 2, low 0, close 1
(any period/multiplier; shown for the defaults 10 and 3): direction is +1
at index 0, the active (lower) band is −5, the upper band is 7, but the
returned line value is the initialisation 0 — not the active band's
value. -/
theorem claim9_counterexample :
    TechnicalIndicators.supertrend_direction (fun _ => 2) (fun _ => 0)
        (fun _ => 1) 10 3 0 = 1 ∧
    TechnicalIndicators.supertrend_line (fun _ => 2) (fun _ => 0)
        (fun _ => 1) 10 3 0 = 0 ∧
    TechnicalIndicators.st_lower (fun _ => 2) (fun _ => 0)
        (fun _ => 1) 10 3 0 = -5 ∧
    TechnicalIndicators.st_upper (fun _ => 2) (fun _ => 0)
        (fun _ => 1) 10 3 0 = 7 ∧
    TechnicalIndicators.supertrend_line (fun _ => 2) (fun _ => 0)
        (fun _ => 1) 10 3 0 ≠
      TechnicalIndicators.st_lower (fun _ => 2) (fun _ => 0)
        (fun _ => 1) 10 3 0 ∧
    TechnicalIndicators.supertrend_line (fun _ => 2) (fun _ => 0)
        (fun _ => 1) 10 3 0 ≠
      TechnicalIndicators.st_upper (fun _ => 2) (fun _ => 0)
        (fun _ => 1) 10 3 0 := by
  refine ⟨rfl, rfl, ?_, ?_, ?_, ?_⟩ <;>
    norm_num [TechnicalIndicators.st_lower, TechnicalIndicators.st_upper,
      TechnicalIndicators.st_basic_lower, TechnicalIndicators.st_basic_upper,
      TechnicalIndicators.supertrend_line, TechnicalIndicators.atr,
      TechnicalIndicators.ewm_mean, TechnicalIndicators.true_range]

/-- C9 amended: every entry of the direction array is +1 or −1, and at
every index i ≥ 1 the returned supertrend line equals the active settled
band (upper band when direction is −1, lower band when direction is +1);
index 0 keeps the initialisations line 0 / direction +1 and is exempt from
the active-band equation. -/
theorem claim9_supertrend_direction_and_line (high low close : ℕ → ℚ)
    (period : ℕ) (multiplier : ℚ) (i : ℕ) :
    (TechnicalIndicators.supertrend_direction high low close period multiplier i = 1 ∨
     TechnicalIndicators.supertrend_direction high low close period multiplier i = -1) ∧
    (1 ≤ i →
      (TechnicalIndicators.supertrend_direction high low close period multiplier i = -1 →
        TechnicalIndicators.supertrend_line high low close period multiplier i =
          TechnicalIndicators.st_upper high low close period multiplier i) ∧
      (TechnicalIndicators.supertrend_direction high low close period multiplier i = 1 →
        TechnicalIndicators.supertrend_line high low close period multiplier i =
          TechnicalIndicators.st_lower high low close period multiplier i)) ∧
    TechnicalIndicators.supertrend_line high low close period multiplier 0 = 0 ∧
    TechnicalIndicators.supertrend_direction high low close period multiplier 0 = 1 := by
  refine ⟨?_, ?_, rfl, rfl⟩
  · cases i with
    | zero => exact Or.inl rfl
    | succ n =>
      by_cases hc : close (n + 1) ≤
          TechnicalIndicators.st_upper high low close period multiplier (n + 1)
      · exact Or.inr (by
          simp [TechnicalIndicators.supertrend_direction, hc])
      · exact Or.inl (by
          simp [TechnicalIndicators.supertrend_direction, hc])
  · intro hi
    cases i with
    | zero => omega
    | succ n =>
      by_cases hc : close (n + 1) ≤
          TechnicalIndicators.st_upper high low close period multiplier (n + 1)
      · refine ⟨fun _ => ?_, fun hdir => absurd hdir ?_⟩
        · simp [TechnicalIndicators.supertrend_line, hc]
        · simp only [TechnicalIndicators.supertrend_direction, if_pos hc]
          norm_num
      · refine ⟨fun hdir => absurd hdir ?_, fun _ => ?_⟩
        · simp only [TechnicalIndicators.supertrend_direction, if_neg hc]
          norm_num
        · simp [TechnicalIndicators.supertrend_line, hc]

/-- Witness for C9 at index 1 of the constant one-price input. -/
theorem claim9_witness :
    (TechnicalIndicators.supertrend_direction (fun _ => 2) (fun _ => 0)
        (fun _ => 1) 10 3 1 = 1 ∨
     TechnicalIndicators.supertrend_direction (fun _ => 2) (fun _ => 0)
        (fun _ => 1) 10 3 1 = -1) ∧
    (1 ≤ 1 →
      (TechnicalIndicators.supertrend_direction (fun _ => 2) (fun _ => 0)
          (fun _ => 1) 10 3 1 = -1 →
        TechnicalIndicators.supertrend_line (fun _ => 2) (fun _ => 0)
            (fun _ => 1) 10 3 1 =
          TechnicalIndicators.st_upper (fun _ => 2) (fun _ => 0)
            (fun _ => 1) 10 3 1) ∧
      (TechnicalIndicators.supertrend_direction (fun _ => 2) (fun _ => 0)
          (fun _ => 1) 10 3 1 = 1 →
        TechnicalIndicators.supertrend_line (fun _ => 2) (fun _ => 0)
            (fun _ => 1) 10 3 1 =
          TechnicalIndicators.st_lower (fun _ => 2) (fun _ => 0)
            (fun _ => 1) 10 3 1)) ∧
    TechnicalIndicators.supertrend_line (fun _ => 2) (fun _ => 0)
        (fun _ => 1) 10 3 0 = 0 ∧
    TechnicalIndicators.supertrend_direction (fun _ => 2) (fun _ => 0)
        (fun _ => 1) 10 3 0 = 1 :=
  claim9_supertrend_direction_and_line (fun _ => 2) (fun _ => 0) (fun _ => 1)
    10 3 1

end MT5
